import Mathlib

/-!
Verification development for the patient bed telemetry simulator
(src/patientbedsimulation.cpp).  The inclination state machine, the
publish loop and the telemetry serialization are embedded shallowly:
pure data flow is translated directly, wall-clock and random inputs
become explicit tick inputs, and the transport is an oracle.
-/

namespace PatientBedSim

/-- Reported bed state (source enum `BedInclinationState`, lines 70-73). -/
inductive BedInclinationState where
  | FLAT
  | INCLINED
deriving DecidableEq, Repr

/-- Configured meal start times as (hour, minute), source line 64. -/
def meal_start_times : List (Nat × Nat) := [(8, 0), (12, 0), (18, 0)]

/-- Source line 54 (`60.0` degrees). -/
def MEAL_INCLINATION_DEGREES : ℚ := 60

/-- Source line 55. -/
def MEAL_INCLINATION_DURATION_MINUTES : Nat := 30

/-- Source line 56 (`30.0` degrees). -/
def MINOR_INCLINATION_DEGREES : ℚ := 30

/-- Source line 57. -/
def MINOR_INCLINATION_DURATION_BASE_MINUTES : ℤ := 10

/-- Source line 58. -/
def MINOR_INCLINATION_DURATION_RAND_ADD_MINUTES : ℤ := 5

/-- Source line 59. -/
def FLAT_STATE_BASE_DURATION_MINUTES : ℤ := 45

/-- Source line 60. -/
def FLAT_STATE_RAND_ADD_MINUTES : ℤ := 15

/-- Source line 61. -/
def PROBABILITY_MINOR_INCLINE : ℚ := 0.20

/-- Meal window membership test of one loop tick, source lines 232-246:
the current local time, in minutes since midnight, lies in
`[mealStart, mealStart + 30)` for some configured meal start. -/
def isMealSlot (current_hour_local current_minute_local : Nat) : Bool :=
  meal_start_times.any fun meal_time =>
    let current_total_minutes := current_hour_local * 60 + current_minute_local
    let meal_start_total_minutes := meal_time.1 * 60 + meal_time.2
    let meal_end_total_minutes := meal_start_total_minutes + MEAL_INCLINATION_DURATION_MINUTES
    decide (meal_start_total_minutes ≤ current_total_minutes) &&
      decide (current_total_minutes < meal_end_total_minutes)

/-- The mutable simulation variables of `main`, source lines 214-218.
Steady-clock instants are modelled as integer second counts. -/
structure BedState where
  currentInclinationState : BedInclinationState
  currentInclination : ℚ
  lastNonMealStateChangeTime : ℤ
  currentNonMealStateDurationSeconds : ℤ
  inMealInclineOverride : Bool
deriving DecidableEq, Repr

/-- The random draws one tick may consume: `probability_dist` is uniform on
`[0,1)`, `minor_incline_duration_rand_addon` uniform on `{0..4}` and
`flat_duration_rand_addon` uniform on `{0..14}` (source lines 210-212). -/
structure RandDraws where
  probDraw : ℚ
  minorAddon : ℤ
  flatAddon : ℤ
deriving DecidableEq, Repr

/-- Support of the three distributions of source lines 210-212. -/
def RandDraws.InSupport (rd : RandDraws) : Prop :=
  0 ≤ rd.probDraw ∧ rd.probDraw < 1 ∧
  0 ≤ rd.minorAddon ∧ rd.minorAddon ≤ MINOR_INCLINATION_DURATION_RAND_ADD_MINUTES - 1 ∧
  0 ≤ rd.flatAddon ∧ rd.flatAddon ≤ FLAT_STATE_RAND_ADD_MINUTES - 1

/-- One tick of the inclination logic, source lines 224-290, as a function
of the pre-tick state, the current local time, the steady-clock instant
`now_steady` and the tick's random draws.  The local
`elapsedSinceLastNonMealChange_seconds` of the source is inlined into the
comparison. -/
def updateInclination (st : BedState) (hour minute : Nat) (now_steady : ℤ)
    (rd : RandDraws) : BedState :=
  if isMealSlot hour minute then
    { st with
      currentInclination := MEAL_INCLINATION_DEGREES,
      currentInclinationState := BedInclinationState.INCLINED,
      inMealInclineOverride := true }
  else if st.inMealInclineOverride then
    { currentInclination := 0,
      currentInclinationState := BedInclinationState.FLAT,
      currentNonMealStateDurationSeconds :=
        (FLAT_STATE_BASE_DURATION_MINUTES + rd.flatAddon) * 60,
      lastNonMealStateChangeTime := now_steady,
      inMealInclineOverride := false }
  else if st.currentNonMealStateDurationSeconds ≤
      now_steady - st.lastNonMealStateChangeTime then
    if st.currentInclinationState = BedInclinationState.FLAT then
      if rd.probDraw < PROBABILITY_MINOR_INCLINE then
        { currentInclination := MINOR_INCLINATION_DEGREES,
          currentInclinationState := BedInclinationState.INCLINED,
          currentNonMealStateDurationSeconds :=
            (MINOR_INCLINATION_DURATION_BASE_MINUTES + rd.minorAddon) * 60,
          lastNonMealStateChangeTime := now_steady,
          inMealInclineOverride := st.inMealInclineOverride }
      else
        { currentInclination := 0,
          currentInclinationState := BedInclinationState.FLAT,
          currentNonMealStateDurationSeconds :=
            (FLAT_STATE_BASE_DURATION_MINUTES + rd.flatAddon) * 60,
          lastNonMealStateChangeTime := now_steady,
          inMealInclineOverride := st.inMealInclineOverride }
    else
      { currentInclination := 0,
        currentInclinationState := BedInclinationState.FLAT,
        currentNonMealStateDurationSeconds :=
          (FLAT_STATE_BASE_DURATION_MINUTES + rd.flatAddon) * 60,
        lastNonMealStateChangeTime := now_steady,
        inMealInclineOverride := st.inMealInclineOverride }
  else
    st

/-- Initial simulation state, source lines 214-218: `flatAddon0` is the
initial `flat_duration_rand_addon` draw and `startSteady` the steady-clock
instant at which the loop starts. -/
def initialBedState (startSteady : ℤ) (flatAddon0 : ℤ) : BedState :=
  { currentInclinationState := BedInclinationState.FLAT,
    currentInclination := 0,
    lastNonMealStateChangeTime := startSteady,
    currentNonMealStateDurationSeconds :=
      (FLAT_STATE_BASE_DURATION_MINUTES + flatAddon0) * 60,
    inMealInclineOverride := false }

/-- Coarse reported label, source line 123:
`(state == FLAT) ? "FLAT" : "INCLINED"`. -/
def bedStateLabel (state : BedInclinationState) : String :=
  if state = BedInclinationState.FLAT then "FLAT" else "INCLINED"

/-- The telemetry value object (source class `Telemetry`, lines 103-140). -/
structure Telemetry where
  deviceId : String
  timestamp : String
  heartRate : ℚ
  spo2 : ℚ
  inclination : ℚ
  bedState : String
deriving DecidableEq, Repr

/-- The `Telemetry` constructor, source lines 120-124; the local-time
timestamp it reads from the clock is passed in explicitly. -/
def mkTelemetry (id : String) (hr oxygen incl : ℚ) (state : BedInclinationState)
    (timestamp : String) : Telemetry :=
  { deviceId := id,
    timestamp := timestamp,
    heartRate := hr,
    spo2 := oxygen,
    inclination := incl,
    bedState := bedStateLabel state }

/-- The per-tick inputs the state machine consumes (local time, steady
clock, random draws). -/
structure SimTick where
  hour : Nat
  minute : Nat
  nowSteady : ℤ
  draws : RandDraws
deriving DecidableEq, Repr

/-- All external inputs of one publish-loop iteration, source lines
220-308: the state-machine inputs plus the sampled vitals, the timestamp
the `Telemetry` constructor reads, and whether the transport raises on
this tick's publish attempt. -/
structure TickInput where
  hour : Nat
  minute : Nat
  nowSteady : ℤ
  draws : RandDraws
  hr : ℚ
  spo2 : ℚ
  timestampStr : String
  publishRaises : Bool
deriving DecidableEq, Repr

/-- Projection of a loop tick input to the state-machine inputs. -/
def TickInput.sim (t : TickInput) : SimTick :=
  { hour := t.hour, minute := t.minute, nowSteady := t.nowSteady, draws := t.draws }

/-- One iteration of the publish loop, source lines 220-308: update the
inclination state, build the telemetry, attempt the publish.  A raising
publish is caught (source lines 298-305), so it only produces an error
log; the returned flag records whether that catch ran. -/
def loopStep (clientId : String) (st : BedState) (t : TickInput) :
    BedState × Telemetry × Bool :=
  let st' := updateInclination st t.hour t.minute t.nowSteady t.draws
  let telemetryData :=
    mkTelemetry clientId t.hr t.spo2 st'.currentInclination
      st'.currentInclinationState t.timestampStr
  (st', telemetryData, t.publishRaises)

/-- The publish loop run over a finite prefix of tick inputs, returning
the final simulation state and, per tick, the telemetry built and whether
a publish error was caught and logged. -/
def runLoop (clientId : String) (st : BedState) :
    List TickInput → BedState × List (Telemetry × Bool)
  | [] => (st, [])
  | t :: ts =>
    let step := loopStep clientId st t
    let rest := runLoop clientId step.1 ts
    (rest.1, (step.2.1, step.2.2) :: rest.2)

/-- The inclination state machine alone, run over the same tick prefix;
it never sees the publish outcomes. -/
def runBed (st : BedState) : List SimTick → BedState
  | [] => st
  | t :: ts => runBed (updateInclination st t.hour t.minute t.nowSteady t.draws) ts

/-- Observable outcome of `main`, source lines 170-319: missing argument
and failed initial connect exit with code 1 before the loop; otherwise the
process runs the (infinite) publish loop, observed here on a finite input
prefix. -/
inductive MainResult where
  | usageExit (code : Nat)
  | connectFailExit (code : Nat)
  | ranLoop (finalState : BedState) (published : List (Telemetry × Bool))
deriving DecidableEq, Repr

/-- Control flow of `main`, source lines 170-308, with the transport's
initial-connect outcome supplied as the oracle `connectSucceeds`. -/
def mainSim (args : List String) (connectSucceeds : Bool)
    (startSteady flatAddon0 : ℤ) (ticks : List TickInput) : MainResult :=
  match args with
  | _prog :: deviceInstanceNumStr :: _ =>
    let clientId := "PatientBed" ++ deviceInstanceNumStr
    if connectSucceeds then
      let st0 := initialBedState startSteady flatAddon0
      let r := runLoop clientId st0 ticks
      MainResult.ranLoop r.1 r.2
    else
      MainResult.connectFailExit 1
  | _ => MainResult.usageExit 1

/-- Invariant on the simulation state: the inclination is one of 0, 30 or
60 degrees and the state is FLAT exactly when the inclination is 0. -/
def BedInv (st : BedState) : Prop :=
  (st.currentInclination = 0 ∨ st.currentInclination = 30 ∨ st.currentInclination = 60) ∧
  (st.currentInclinationState = BedInclinationState.FLAT ↔ st.currentInclination = 0)

/-- Byte-wise (equivalently code-point-wise) strict order on char lists,
the comparison `std::map` applies to `std::string` keys. -/
def charListLt : List Char → List Char → Bool
  | [], [] => false
  | [], _ :: _ => true
  | _ :: _, [] => false
  | a :: as, b :: bs =>
    if a.val < b.val then true
    else if b.val < a.val then false
    else charListLt as bs

/-- Modelled from the library: a json value of the two shapes `Telemetry`
stores (string, and finite double modelled as an exact rational). -/
inductive JVal where
  | str (s : String)
  | num (q : ℚ)
deriving DecidableEq, Repr

/-- Modelled from the library: `json::operator[]` insertion into a default
`nlohmann::json` object, whose `object_t` is a `std::map` keeping keys
sorted. -/
def jsonInsert : List (String × JVal) → String → JVal → List (String × JVal)
  | [], k, v => [(k, v)]
  | (k0, v0) :: rest, k, v =>
    if charListLt k.data k0.data then (k, v) :: (k0, v0) :: rest
    else if k = k0 then (k, v) :: rest
    else (k0, v0) :: jsonInsert rest k v

/-- Lower-case hexadecimal digit, as the library's `\uXXXX` escapes use. -/
def hexDigitChar (n : Nat) : Char :=
  if n < 10 then Char.ofNat (48 + n) else Char.ofNat (87 + n)

/-- Modelled from the library: JSON escaping of one character in
`nlohmann::json::dump` (default `ensure_ascii = false`): quote, backslash
and the named control characters get two-character escapes, the remaining
control characters a `\u00XX` escape, everything else stands for itself. -/
def escChar (c : Char) : List Char :=
  if c = '\x22' then ['\\', '\x22']
  else if c = '\\' then ['\\', '\\']
  else if c = '\x08' then ['\\', 'b']
  else if c = '\x0c' then ['\\', 'f']
  else if c = '\n' then ['\\', 'n']
  else if c = '\r' then ['\\', 'r']
  else if c = '\t' then ['\\', 't']
  else if c.toNat < 32 then
    ['\\', 'u', '0', '0', hexDigitChar (c.toNat / 16), hexDigitChar (c.toNat % 16)]
  else [c]

/-- JSON escaping of a whole character list. -/
def escList : List Char → List Char
  | [] => []
  | c :: cs => escChar c ++ escList cs

/-- Little-endian decimal digits, by fuel-based division. -/
def natDigitsAux : Nat → Nat → List Nat
  | 0, _ => []
  | _ + 1, 0 => []
  | fuel + 1, n + 1 => (n + 1) % 10 :: natDigitsAux fuel ((n + 1) / 10)

/-- Little-endian decimal digits of `n` (empty for 0). -/
def natDigits (n : Nat) : List Nat := natDigitsAux n n

/-- Decimal digit as a character. -/
def digitChar (d : Nat) : Char := Char.ofNat (48 + d)

/-- Big-endian decimal numeral of a natural number. -/
def natToDecChars (n : Nat) : List Char :=
  if n = 0 then ['0'] else ((natDigits n).map digitChar).reverse

/-- Smallest `k < 1200` with `d ∣ 10 ^ k`, if any; every denominator of a
binary floating-point value admits one. -/
def pow10Exp (d : Nat) : Option Nat :=
  (List.range 1200).find? fun k => decide (d ∣ 10 ^ k)

/-- Modelled from the library: `nlohmann::json` serializes a finite double
as a decimal numeral that parses back to the same value, printing integral
doubles with a trailing `.0`; doubles are modelled as rationals whose
denominator divides a power of ten and the exact decimal expansion is
rendered (rationals outside that set render as `null`, like non-finite
doubles — a case no telemetry value reaches). -/
def renderNumChars (q : ℚ) : List Char :=
  match pow10Exp q.den with
  | none => ['n', 'u', 'l', 'l']
  | some k =>
    let k1 := max k 1
    let scaled : ℤ := q.num * ((10 ^ k1 : ℤ) / (q.den : ℤ))
    let a := scaled.natAbs
    let intPart := natToDecChars (a / 10 ^ k1)
    let fracLE := natDigits (a % 10 ^ k1)
    let fracPart :=
      List.replicate (k1 - fracLE.length) '0' ++ (fracLE.map digitChar).reverse
    (if scaled < 0 then ['-'] else []) ++ intPart ++ '.' :: fracPart

/-- Modelled from the library: serialization of one json value. -/
def dumpJVal : JVal → List Char
  | JVal.str s => '\x22' :: escList s.data ++ ['\x22']
  | JVal.num q => renderNumChars q

/-- One `"key": value` entry of the dumped object. -/
def dumpEntry (e : String × JVal) : List Char :=
  '\x22' :: escList e.1.data ++ '\x22' :: ':' :: ' ' :: dumpJVal e.2

/-- Entries joined by `,` and a newline plus four-space indent. -/
def dumpEntries : List (String × JVal) → List Char
  | [] => []
  | [e] => dumpEntry e
  | e :: e2 :: rest =>
    dumpEntry e ++ ',' :: '\n' :: ' ' :: ' ' :: ' ' :: ' ' :: dumpEntries (e2 :: rest)

/-- Modelled from the library: `json::dump(4)` of an object — keys in map
order, one entry per line behind a four-space indent. -/
def dump4 (obj : List (String × JVal)) : String :=
  match obj with
  | [] => String.mk ['\x7b', '\x7d']
  | _ :: _ =>
    String.mk
      ('\x7b' :: '\n' :: ' ' :: ' ' :: ' ' :: ' ' :: (dumpEntries obj ++ ['\n', '\x7d']))

/-- `Telemetry::toJson`, source lines 130-139: six `operator[]` inserts on
a default (key-sorted) json object, then `dump(4)`. -/
def Telemetry.toJson (t : Telemetry) : String :=
  let j := jsonInsert [] "deviceId" (JVal.str t.deviceId)
  let j := jsonInsert j "timestamp" (JVal.str t.timestamp)
  let j := jsonInsert j "heartRate" (JVal.num t.heartRate)
  let j := jsonInsert j "spo2" (JVal.num t.spo2)
  let j := jsonInsert j "inclination" (JVal.num t.inclination)
  let j := jsonInsert j "bedState" (JVal.str t.bedState)
  dump4 j

/-- Value of a lower-case hexadecimal digit character. -/
def hexVal (c : Char) : Option Nat :=
  if 48 ≤ c.toNat ∧ c.toNat ≤ 57 then some (c.toNat - 48)
  else if 97 ≤ c.toNat ∧ c.toNat ≤ 102 then some (c.toNat - 87)
  else none

/-- Parser for the inside of a JSON string (after the opening quote):
returns the unescaped content and the remainder after the closing
quote. -/
def parseStrContent : List Char → Option (List Char × List Char)
  | [] => none
  | c :: rest =>
    if c = '\x22' then some ([], rest)
    else if c = '\\' then
      match rest with
      | [] => none
      | e :: rest2 =>
        if e = '\x22' then (parseStrContent rest2).map fun p => ('\x22' :: p.1, p.2)
        else if e = '\\' then (parseStrContent rest2).map fun p => ('\\' :: p.1, p.2)
        else if e = 'b' then (parseStrContent rest2).map fun p => ('\x08' :: p.1, p.2)
        else if e = 'f' then (parseStrContent rest2).map fun p => ('\x0c' :: p.1, p.2)
        else if e = 'n' then (parseStrContent rest2).map fun p => ('\n' :: p.1, p.2)
        else if e = 'r' then (parseStrContent rest2).map fun p => ('\r' :: p.1, p.2)
        else if e = 't' then (parseStrContent rest2).map fun p => ('\t' :: p.1, p.2)
        else if e = 'u' then
          match rest2 with
          | h1 :: h2 :: h3 :: h4 :: rest3 =>
            match hexVal h1, hexVal h2, hexVal h3, hexVal h4 with
            | some a, some b, some c2, some d =>
              (parseStrContent rest3).map fun p =>
                (Char.ofNat (((a * 16 + b) * 16 + c2) * 16 + d) :: p.1, p.2)
            | _, _, _, _ => none
          | _ => none
        else none
    else (parseStrContent rest).map fun p => (c :: p.1, p.2)
termination_by structural cs => cs

/-- Parser for a JSON string value including its quotes. -/
def parseJStr : List Char → Option (String × List Char)
  | [] => none
  | c :: rest =>
    if c = '\x22' then (parseStrContent rest).map fun p => (String.mk p.1, p.2)
    else none

/-- Decimal digit test. -/
def isDigitB (c : Char) : Bool := decide (48 ≤ c.toNat) && decide (c.toNat ≤ 57)

/-- Longest digit-character span and the remainder. -/
def takeDigits : List Char → List Char × List Char
  | [] => ([], [])
  | c :: rest =>
    if isDigitB c then (c :: (takeDigits rest).1, (takeDigits rest).2)
    else ([], c :: rest)

/-- Value of a big-endian digit-character numeral. -/
def digitsValB (cs : List Char) : Nat :=
  cs.foldl (fun a c => a * 10 + (c.toNat - 48)) 0

/-- Parser for an unsigned decimal `int.frac` numeral. -/
def parseJNumCore (cs : List Char) : Option (ℚ × List Char) :=
  match takeDigits cs with
  | (ip, rest1) =>
    if ip.isEmpty then none
    else
      match rest1 with
      | '.' :: rest2 =>
        match takeDigits rest2 with
        | (fp, rest3) =>
          if fp.isEmpty then none
          else
            some (((digitsValB ip * 10 ^ fp.length + digitsValB fp : ℕ) : ℚ) /
              ((10 : ℚ) ^ fp.length), rest3)
      | _ => none

/-- Parser for a possibly negated decimal numeral. -/
def parseJNum : List Char → Option (ℚ × List Char)
  | [] => none
  | c :: rest =>
    if c = '-' then (parseJNumCore rest).map fun p => (-p.1, p.2)
    else parseJNumCore (c :: rest)

/-- Consume an expected literal character sequence. -/
def dropLit : List Char → List Char → Option (List Char)
  | [], cs => some cs
  | _ :: _, [] => none
  | p :: ps, c :: cs => if c = p then dropLit ps cs else none

/-- Parser inverting the serialized payload shape: the `dump(4)` skeleton
with the keys in map order, then the six field values. -/
def parseTelemetry (s : String) : Option Telemetry :=
  match dropLit "\x7b\n    \x22bedState\x22: ".data s.data with
  | none => none
  | some r0 =>
    match parseJStr r0 with
    | none => none
    | some (bedStateV, r1) =>
      match dropLit ",\n    \x22deviceId\x22: ".data r1 with
      | none => none
      | some r2 =>
        match parseJStr r2 with
        | none => none
        | some (deviceIdV, r3) =>
          match dropLit ",\n    \x22heartRate\x22: ".data r3 with
          | none => none
          | some r4 =>
            match parseJNum r4 with
            | none => none
            | some (hrV, r5) =>
              match dropLit ",\n    \x22inclination\x22: ".data r5 with
              | none => none
              | some r6 =>
                match parseJNum r6 with
                | none => none
                | some (inclV, r7) =>
                  match dropLit ",\n    \x22spo2\x22: ".data r7 with
                  | none => none
                  | some r8 =>
                    match parseJNum r8 with
                    | none => none
                    | some (spo2V, r9) =>
                      match dropLit ",\n    \x22timestamp\x22: ".data r9 with
                      | none => none
                      | some r10 =>
                        match parseJStr r10 with
                        | none => none
                        | some (tsV, r11) =>
                          match dropLit "\n\x7d".data r11 with
                          | some [] =>
                            some { deviceId := deviceIdV, timestamp := tsV,
                                   heartRate := hrV, spo2 := spo2V,
                                   inclination := inclV, bedState := bedStateV }
                          | _ => none

/-- Index of the first occurrence of `needle` in the remaining text. -/
def firstOccurAux (needle : List Char) : List Char → Nat → Option Nat
  | [], i => if needle.isEmpty then some i else none
  | c :: rest, i =>
    if needle.isPrefixOf (c :: rest) then some i
    else firstOccurAux needle rest (i + 1)

/-- First-occurrence index of each quoted key in the payload. -/
def keyPositions (payload : String) (keys : List String) : List (Option Nat) :=
  keys.map fun k => firstOccurAux ('\x22' :: k.data ++ ['\x22']) payload.data 0

/-- All positions present and strictly increasing. -/
def ascending : List (Option Nat) → Bool
  | [] => true
  | [some _] => true
  | some i :: some j :: rest => decide (i < j) && ascending (some j :: rest)
  | _ => false

/-- The given keys occur, each quoted, in the given order in the
payload. -/
def keysInOrder (payload : String) (keys : List String) : Bool :=
  ascending (keyPositions payload keys)

/-- Value of a little-endian decimal digit list (proof helper). -/
def natValLE : List Nat → Nat
  | [] => 0
  | d :: ds => d + 10 * natValLE ds

/-- Whether a character list starts with a decimal digit. -/
def headDigit : List Char → Bool
  | [] => false
  | c :: _ => isDigitB c

theorem updateInclination_meal (st : BedState) (hour minute : Nat) (now_steady : ℤ)
    (rd : RandDraws) (hm : isMealSlot hour minute = true) :
    updateInclination st hour minute now_steady rd =
      { st with
        currentInclination := MEAL_INCLINATION_DEGREES,
        currentInclinationState := BedInclinationState.INCLINED,
        inMealInclineOverride := true } := by
  unfold updateInclination
  rw [if_pos hm]

theorem updateInclination_mealExit (st : BedState) (hour minute : Nat) (now_steady : ℤ)
    (rd : RandDraws) (hm : isMealSlot hour minute = false)
    (hov : st.inMealInclineOverride = true) :
    updateInclination st hour minute now_steady rd =
      { currentInclinationState := BedInclinationState.FLAT,
        currentInclination := 0,
        lastNonMealStateChangeTime := now_steady,
        currentNonMealStateDurationSeconds :=
          (FLAT_STATE_BASE_DURATION_MINUTES + rd.flatAddon) * 60,
        inMealInclineOverride := false } := by
  unfold updateInclination
  rw [if_neg (by simp [hm]), if_pos hov]

theorem updateInclination_minorEnter (st : BedState) (hour minute : Nat) (now_steady : ℤ)
    (rd : RandDraws) (hm : isMealSlot hour minute = false)
    (hov : st.inMealInclineOverride = false)
    (hexp : st.currentNonMealStateDurationSeconds ≤
      now_steady - st.lastNonMealStateChangeTime)
    (hfl : st.currentInclinationState = BedInclinationState.FLAT)
    (hp : rd.probDraw < PROBABILITY_MINOR_INCLINE) :
    updateInclination st hour minute now_steady rd =
      { currentInclinationState := BedInclinationState.INCLINED,
        currentInclination := MINOR_INCLINATION_DEGREES,
        lastNonMealStateChangeTime := now_steady,
        currentNonMealStateDurationSeconds :=
          (MINOR_INCLINATION_DURATION_BASE_MINUTES + rd.minorAddon) * 60,
        inMealInclineOverride := st.inMealInclineOverride } := by
  unfold updateInclination
  rw [if_neg (by simp [hm]), if_neg (by simp [hov]), if_pos hexp, if_pos hfl, if_pos hp]

theorem updateInclination_flatReset (st : BedState) (hour minute : Nat) (now_steady : ℤ)
    (rd : RandDraws) (hm : isMealSlot hour minute = false)
    (hov : st.inMealInclineOverride = false)
    (hexp : st.currentNonMealStateDurationSeconds ≤
      now_steady - st.lastNonMealStateChangeTime)
    (hfl : st.currentInclinationState = BedInclinationState.FLAT)
    (hp : ¬ rd.probDraw < PROBABILITY_MINOR_INCLINE) :
    updateInclination st hour minute now_steady rd =
      { currentInclinationState := BedInclinationState.FLAT,
        currentInclination := 0,
        lastNonMealStateChangeTime := now_steady,
        currentNonMealStateDurationSeconds :=
          (FLAT_STATE_BASE_DURATION_MINUTES + rd.flatAddon) * 60,
        inMealInclineOverride := st.inMealInclineOverride } := by
  unfold updateInclination
  rw [if_neg (by simp [hm]), if_neg (by simp [hov]), if_pos hexp, if_pos hfl, if_neg hp]

theorem updateInclination_minorExit (st : BedState) (hour minute : Nat) (now_steady : ℤ)
    (rd : RandDraws) (hm : isMealSlot hour minute = false)
    (hov : st.inMealInclineOverride = false)
    (hexp : st.currentNonMealStateDurationSeconds ≤
      now_steady - st.lastNonMealStateChangeTime)
    (hfl : ¬ st.currentInclinationState = BedInclinationState.FLAT) :
    updateInclination st hour minute now_steady rd =
      { currentInclinationState := BedInclinationState.FLAT,
        currentInclination := 0,
        lastNonMealStateChangeTime := now_steady,
        currentNonMealStateDurationSeconds :=
          (FLAT_STATE_BASE_DURATION_MINUTES + rd.flatAddon) * 60,
        inMealInclineOverride := st.inMealInclineOverride } := by
  unfold updateInclination
  rw [if_neg (by simp [hm]), if_neg (by simp [hov]), if_pos hexp, if_neg hfl]

theorem updateInclination_noChange (st : BedState) (hour minute : Nat) (now_steady : ℤ)
    (rd : RandDraws) (hm : isMealSlot hour minute = false)
    (hov : st.inMealInclineOverride = false)
    (hexp : ¬ st.currentNonMealStateDurationSeconds ≤
      now_steady - st.lastNonMealStateChangeTime) :
    updateInclination st hour minute now_steady rd = st := by
  unfold updateInclination
  rw [if_neg (by simp [hm]), if_neg (by simp [hov]), if_neg hexp]

theorem bedInv_update (st : BedState) (hour minute : Nat) (now_steady : ℤ)
    (rd : RandDraws) (h : BedInv st) :
    BedInv (updateInclination st hour minute now_steady rd) := by
  by_cases hm : isMealSlot hour minute = true
  · rw [updateInclination_meal st hour minute now_steady rd hm]
    exact ⟨Or.inr (Or.inr rfl), by simp [MEAL_INCLINATION_DEGREES]⟩
  · have hm' : isMealSlot hour minute = false := by
      cases hval : isMealSlot hour minute
      · rfl
      · exact absurd hval hm
    by_cases hov : st.inMealInclineOverride = true
    · rw [updateInclination_mealExit st hour minute now_steady rd hm' hov]
      exact ⟨Or.inl rfl, by simp⟩
    · have hov' : st.inMealInclineOverride = false := by
        cases hval : st.inMealInclineOverride
        · rfl
        · exact absurd hval hov
      by_cases hexp : st.currentNonMealStateDurationSeconds ≤
          now_steady - st.lastNonMealStateChangeTime
      · by_cases hfl : st.currentInclinationState = BedInclinationState.FLAT
        · by_cases hp : rd.probDraw < PROBABILITY_MINOR_INCLINE
          · rw [updateInclination_minorEnter st hour minute now_steady rd hm' hov' hexp hfl hp]
            exact ⟨Or.inr (Or.inl rfl), by simp [MINOR_INCLINATION_DEGREES]⟩
          · rw [updateInclination_flatReset st hour minute now_steady rd hm' hov' hexp hfl hp]
            exact ⟨Or.inl rfl, by simp⟩
        · rw [updateInclination_minorExit st hour minute now_steady rd hm' hov' hexp hfl]
          exact ⟨Or.inl rfl, by simp⟩
      · rw [updateInclination_noChange st hour minute now_steady rd hm' hov' hexp]
        exact h

theorem bedInv_runLoop (clientId : String) (st : BedState) (ticks : List TickInput)
    (h : BedInv st) :
    BedInv (runLoop clientId st ticks).1 ∧
      ∀ p ∈ (runLoop clientId st ticks).2,
        (p.1.bedState = "FLAT" ∧ p.1.inclination = 0) ∨
        (p.1.bedState = "INCLINED" ∧ (p.1.inclination = 30 ∨ p.1.inclination = 60)) := by
  induction ticks generalizing st with
  | nil =>
    refine ⟨h, ?_⟩
    intro p hp
    simp [runLoop] at hp
  | cons t ts ih =>
    have hst' : BedInv (updateInclination st t.hour t.minute t.nowSteady t.draws) :=
      bedInv_update st t.hour t.minute t.nowSteady t.draws h
    have hrec := ih _ hst'
    refine ⟨hrec.1, ?_⟩
    intro p hp
    simp only [runLoop, loopStep, List.mem_cons] at hp
    rcases hp with hp | hp
    · rcases hst' with ⟨hv, hiff⟩
      rcases hv with h0 | h30 | h60
      · left
        have hfl := hiff.mpr h0
        subst hp
        exact ⟨by simp [mkTelemetry, bedStateLabel, hfl], by simpa [mkTelemetry] using h0⟩
      · right
        have hne : (updateInclination st t.hour t.minute t.nowSteady t.draws).currentInclinationState ≠
            BedInclinationState.FLAT := by
          intro hfl
          rw [hiff.mp hfl] at h30
          norm_num at h30
        subst hp
        exact ⟨by simp [mkTelemetry, bedStateLabel, hne],
          Or.inl (by simpa [mkTelemetry] using h30)⟩
      · right
        have hne : (updateInclination st t.hour t.minute t.nowSteady t.draws).currentInclinationState ≠
            BedInclinationState.FLAT := by
          intro hfl
          rw [hiff.mp hfl] at h60
          norm_num at h60
        subst hp
        exact ⟨by simp [mkTelemetry, bedStateLabel, hne],
          Or.inr (by simpa [mkTelemetry] using h60)⟩
    · exact hrec.2 p hp

/-- C1: at every tick whose local time, in minutes since midnight, lies in
`[start, start + 30)` for at least one configured meal start (08:00, 12:00
or 18:00), the inclination becomes 60 degrees and the reported label
INCLINED, whatever the prior state, inclination, dwell timer or dwell
duration. -/
theorem C1_meal_window_forces_incline (st : BedState) (hour minute : Nat)
    (now_steady : ℤ) (rd : RandDraws)
    (h : ∃ mt ∈ meal_start_times,
      mt.1 * 60 + mt.2 ≤ hour * 60 + minute ∧
      hour * 60 + minute < mt.1 * 60 + mt.2 + 30) :
    (updateInclination st hour minute now_steady rd).currentInclination = 60 ∧
    (updateInclination st hour minute now_steady rd).currentInclinationState =
      BedInclinationState.INCLINED ∧
    bedStateLabel
      (updateInclination st hour minute now_steady rd).currentInclinationState =
      "INCLINED" := by
  have hm : isMealSlot hour minute = true := by
    obtain ⟨mt, hmem, h1, h2⟩ := h
    unfold isMealSlot
    rw [List.any_eq_true]
    refine ⟨mt, hmem, ?_⟩
    simp only [Bool.and_eq_true, decide_eq_true_eq, MEAL_INCLINATION_DURATION_MINUTES]
    exact ⟨h1, h2⟩
  rw [updateInclination_meal st hour minute now_steady rd hm]
  exact ⟨rfl, rfl, rfl⟩

theorem C1_meal_window_forces_incline_witness :
    (updateInclination
        { currentInclinationState := BedInclinationState.FLAT,
          currentInclination := 0,
          lastNonMealStateChangeTime := 0,
          currentNonMealStateDurationSeconds := 2700,
          inMealInclineOverride := false } 8 5 100
        { probDraw := 1/2, minorAddon := 0, flatAddon := 0 }).currentInclination = 60 ∧
    (updateInclination
        { currentInclinationState := BedInclinationState.FLAT,
          currentInclination := 0,
          lastNonMealStateChangeTime := 0,
          currentNonMealStateDurationSeconds := 2700,
          inMealInclineOverride := false } 8 5 100
        { probDraw := 1/2, minorAddon := 0, flatAddon := 0 }).currentInclinationState =
      BedInclinationState.INCLINED ∧
    bedStateLabel
      (updateInclination
        { currentInclinationState := BedInclinationState.FLAT,
          currentInclination := 0,
          lastNonMealStateChangeTime := 0,
          currentNonMealStateDurationSeconds := 2700,
          inMealInclineOverride := false } 8 5 100
        { probDraw := 1/2, minorAddon := 0, flatAddon := 0 }).currentInclinationState =
      "INCLINED" :=
  C1_meal_window_forces_incline _ 8 5 100 _ (by decide)

/-- C2 counterexample: a tick at 12:00 with prior state FLAT and dwell
duration 1234 seconds transitions into the meal incline (the state
machine exits FLAT because a meal window begins), yet the dwell duration
is not re-randomized: it is still 1234 after the tick. -/
theorem C2_counterexample :
    (updateInclination
        { currentInclinationState := BedInclinationState.FLAT,
          currentInclination := 0,
          lastNonMealStateChangeTime := 0,
          currentNonMealStateDurationSeconds := 1234,
          inMealInclineOverride := false } 12 0 50
        { probDraw := 1/2, minorAddon := 3, flatAddon := 7 }).currentInclinationState =
      BedInclinationState.INCLINED ∧
    (updateInclination
        { currentInclinationState := BedInclinationState.FLAT,
          currentInclination := 0,
          lastNonMealStateChangeTime := 0,
          currentNonMealStateDurationSeconds := 1234,
          inMealInclineOverride := false } 12 0 50
        { probDraw := 1/2, minorAddon := 3, flatAddon := 7 }).currentNonMealStateDurationSeconds =
      1234 := by
  constructor <;> decide

/-- C2 (amended): the dwell duration is re-randomized at every non-meal
transition — exiting the meal override, and every dwell-expiry transition
out of FLAT or out of the minor incline — so that the new duration always
comes from this tick's fresh draws; on the transition into the meal
override, however, the dwell duration variable is left unchanged (its
stale value is redrawn at meal exit before the dwell timer is next
consulted). -/
theorem C2_amended_redraw_on_nonmeal_transition (st : BedState) (hour minute : Nat)
    (now_steady : ℤ) (rd : RandDraws)
    (hslot : isMealSlot hour minute = false)
    (htrans : st.inMealInclineOverride = true ∨
      st.currentNonMealStateDurationSeconds ≤ now_steady - st.lastNonMealStateChangeTime) :
    (updateInclination st hour minute now_steady rd).currentNonMealStateDurationSeconds =
        (45 + rd.flatAddon) * 60 ∨
    (updateInclination st hour minute now_steady rd).currentNonMealStateDurationSeconds =
        (10 + rd.minorAddon) * 60 := by
  by_cases hov : st.inMealInclineOverride = true
  · left
    rw [updateInclination_mealExit st hour minute now_steady rd hslot hov]
    rfl
  · have hov' : st.inMealInclineOverride = false := by
      cases hval : st.inMealInclineOverride
      · rfl
      · exact absurd hval hov
    have hexp : st.currentNonMealStateDurationSeconds ≤
        now_steady - st.lastNonMealStateChangeTime := by
      rcases htrans with hcontra | hexp
      · exact absurd hcontra hov
      · exact hexp
    by_cases hfl : st.currentInclinationState = BedInclinationState.FLAT
    · by_cases hp : rd.probDraw < PROBABILITY_MINOR_INCLINE
      · right
        rw [updateInclination_minorEnter st hour minute now_steady rd hslot hov' hexp hfl hp]
        rfl
      · left
        rw [updateInclination_flatReset st hour minute now_steady rd hslot hov' hexp hfl hp]
        rfl
    · left
      rw [updateInclination_minorExit st hour minute now_steady rd hslot hov' hexp hfl]
      rfl

theorem C2_amended_redraw_on_nonmeal_transition_witness :
    (updateInclination
        { currentInclinationState := BedInclinationState.INCLINED,
          currentInclination := 60,
          lastNonMealStateChangeTime := 0,
          currentNonMealStateDurationSeconds := 2700,
          inMealInclineOverride := true } 23 0 50
        { probDraw := 1/2, minorAddon := 3, flatAddon := 7 }).currentNonMealStateDurationSeconds =
        (45 + (7 : ℤ)) * 60 ∨
    (updateInclination
        { currentInclinationState := BedInclinationState.INCLINED,
          currentInclination := 60,
          lastNonMealStateChangeTime := 0,
          currentNonMealStateDurationSeconds := 2700,
          inMealInclineOverride := true } 23 0 50
        { probDraw := 1/2, minorAddon := 3, flatAddon := 7 }).currentNonMealStateDurationSeconds =
        (10 + (3 : ℤ)) * 60 :=
  C2_amended_redraw_on_nonmeal_transition _ 23 0 50 _ (by decide) (Or.inl rfl)

/-- C5: at a tick where the previous tick was under the meal-incline
override and the local time is outside all meal windows, the state becomes
FLAT at 0 degrees, the dwell duration is redrawn as `45 + U[0,15)` minutes
(so it lies in `[2700, 3600)` seconds), and the current steady-clock
instant is recorded as the last non-meal transition time. -/
theorem C5_meal_exit_resets_flat (st : BedState) (hour minute : Nat)
    (now_steady : ℤ) (rd : RandDraws)
    (hslot : isMealSlot hour minute = false)
    (hov : st.inMealInclineOverride = true)
    (hfa : 0 ≤ rd.flatAddon ∧ rd.flatAddon ≤ 14) :
    (updateInclination st hour minute now_steady rd).currentInclinationState =
        BedInclinationState.FLAT ∧
    (updateInclination st hour minute now_steady rd).currentInclination = 0 ∧
    (updateInclination st hour minute now_steady rd).currentNonMealStateDurationSeconds =
        (45 + rd.flatAddon) * 60 ∧
    2700 ≤ (updateInclination st hour minute now_steady rd).currentNonMealStateDurationSeconds ∧
    (updateInclination st hour minute now_steady rd).currentNonMealStateDurationSeconds < 3600 ∧
    (updateInclination st hour minute now_steady rd).lastNonMealStateChangeTime = now_steady ∧
    (updateInclination st hour minute now_steady rd).inMealInclineOverride = false := by
  rw [updateInclination_mealExit st hour minute now_steady rd hslot hov]
  refine ⟨rfl, rfl, rfl, ?_, ?_, rfl, rfl⟩
  · show 2700 ≤ (45 + rd.flatAddon) * 60
    omega
  · show (45 + rd.flatAddon) * 60 < 3600
    omega

theorem C5_meal_exit_resets_flat_witness :
    (updateInclination
        { currentInclinationState := BedInclinationState.INCLINED,
          currentInclination := 60,
          lastNonMealStateChangeTime := 10,
          currentNonMealStateDurationSeconds := 2700,
          inMealInclineOverride := true } 18 31 500
        { probDraw := 1/2, minorAddon := 2, flatAddon := 9 }).currentInclinationState =
        BedInclinationState.FLAT ∧
    (updateInclination
        { currentInclinationState := BedInclinationState.INCLINED,
          currentInclination := 60,
          lastNonMealStateChangeTime := 10,
          currentNonMealStateDurationSeconds := 2700,
          inMealInclineOverride := true } 18 31 500
        { probDraw := 1/2, minorAddon := 2, flatAddon := 9 }).currentInclination = 0 ∧
    (updateInclination
        { currentInclinationState := BedInclinationState.INCLINED,
          currentInclination := 60,
          lastNonMealStateChangeTime := 10,
          currentNonMealStateDurationSeconds := 2700,
          inMealInclineOverride := true } 18 31 500
        { probDraw := 1/2, minorAddon := 2, flatAddon := 9 }).currentNonMealStateDurationSeconds =
        (45 + (9 : ℤ)) * 60 ∧
    2700 ≤ (updateInclination
        { currentInclinationState := BedInclinationState.INCLINED,
          currentInclination := 60,
          lastNonMealStateChangeTime := 10,
          currentNonMealStateDurationSeconds := 2700,
          inMealInclineOverride := true } 18 31 500
        { probDraw := 1/2, minorAddon := 2, flatAddon := 9 }).currentNonMealStateDurationSeconds ∧
    (updateInclination
        { currentInclinationState := BedInclinationState.INCLINED,
          currentInclination := 60,
          lastNonMealStateChangeTime := 10,
          currentNonMealStateDurationSeconds := 2700,
          inMealInclineOverride := true } 18 31 500
        { probDraw := 1/2, minorAddon := 2, flatAddon := 9 }).currentNonMealStateDurationSeconds < 3600 ∧
    (updateInclination
        { currentInclinationState := BedInclinationState.INCLINED,
          currentInclination := 60,
          lastNonMealStateChangeTime := 10,
          currentNonMealStateDurationSeconds := 2700,
          inMealInclineOverride := true } 18 31 500
        { probDraw := 1/2, minorAddon := 2, flatAddon := 9 }).lastNonMealStateChangeTime = 500 ∧
    (updateInclination
        { currentInclinationState := BedInclinationState.INCLINED,
          currentInclination := 60,
          lastNonMealStateChangeTime := 10,
          currentNonMealStateDurationSeconds := 2700,
          inMealInclineOverride := true } 18 31 500
        { probDraw := 1/2, minorAddon := 2, flatAddon := 9 }).inMealInclineOverride = false :=
  C5_meal_exit_resets_flat _ 18 31 500 _ (by decide) rfl (by decide)

/-- C6: at a tick with no meal window active, no meal override to exit,
state FLAT and an expired dwell timer: if the uniform draw is below 0.20
the bed inclines to 30 degrees with a new dwell of `10 + U[0,5)` minutes,
otherwise it stays FLAT at 0 degrees with a fresh dwell of `45 + U[0,15)`
minutes; in both branches the last non-meal transition time becomes the
current instant. -/
theorem C6_dwell_expiry_from_flat (st : BedState) (hour minute : Nat)
    (now_steady : ℤ) (rd : RandDraws)
    (hslot : isMealSlot hour minute = false)
    (hov : st.inMealInclineOverride = false)
    (hfl : st.currentInclinationState = BedInclinationState.FLAT)
    (hexp : st.currentNonMealStateDurationSeconds ≤
      now_steady - st.lastNonMealStateChangeTime) :
    (rd.probDraw < 0.20 →
      (updateInclination st hour minute now_steady rd).currentInclinationState =
          BedInclinationState.INCLINED ∧
      (updateInclination st hour minute now_steady rd).currentInclination = 30 ∧
      (updateInclination st hour minute now_steady rd).currentNonMealStateDurationSeconds =
          (10 + rd.minorAddon) * 60 ∧
      (updateInclination st hour minute now_steady rd).lastNonMealStateChangeTime =
          now_steady) ∧
    (¬ rd.probDraw < 0.20 →
      (updateInclination st hour minute now_steady rd).currentInclinationState =
          BedInclinationState.FLAT ∧
      (updateInclination st hour minute now_steady rd).currentInclination = 0 ∧
      (updateInclination st hour minute now_steady rd).currentNonMealStateDurationSeconds =
          (45 + rd.flatAddon) * 60 ∧
      (updateInclination st hour minute now_steady rd).lastNonMealStateChangeTime =
          now_steady) := by
  constructor
  · intro hp
    rw [updateInclination_minorEnter st hour minute now_steady rd hslot hov hexp hfl hp]
    exact ⟨rfl, rfl, rfl, rfl⟩
  · intro hp
    rw [updateInclination_flatReset st hour minute now_steady rd hslot hov hexp hfl hp]
    exact ⟨rfl, rfl, rfl, rfl⟩

theorem C6_dwell_expiry_from_flat_witness :
    (updateInclination
        { currentInclinationState := BedInclinationState.FLAT,
          currentInclination := 0,
          lastNonMealStateChangeTime := 0,
          currentNonMealStateDurationSeconds := 2700,
          inMealInclineOverride := false } 23 0 3000
        { probDraw := 1/2, minorAddon := 1, flatAddon := 4 }).currentInclinationState =
        BedInclinationState.FLAT ∧
    (updateInclination
        { currentInclinationState := BedInclinationState.FLAT,
          currentInclination := 0,
          lastNonMealStateChangeTime := 0,
          currentNonMealStateDurationSeconds := 2700,
          inMealInclineOverride := false } 23 0 3000
        { probDraw := 1/2, minorAddon := 1, flatAddon := 4 }).currentInclination = 0 ∧
    (updateInclination
        { currentInclinationState := BedInclinationState.FLAT,
          currentInclination := 0,
          lastNonMealStateChangeTime := 0,
          currentNonMealStateDurationSeconds := 2700,
          inMealInclineOverride := false } 23 0 3000
        { probDraw := 1/2, minorAddon := 1, flatAddon := 4 }).currentNonMealStateDurationSeconds =
        (45 + (4 : ℤ)) * 60 ∧
    (updateInclination
        { currentInclinationState := BedInclinationState.FLAT,
          currentInclination := 0,
          lastNonMealStateChangeTime := 0,
          currentNonMealStateDurationSeconds := 2700,
          inMealInclineOverride := false } 23 0 3000
        { probDraw := 1/2, minorAddon := 1, flatAddon := 4 }).lastNonMealStateChangeTime = 3000 :=
  (C6_dwell_expiry_from_flat
    { currentInclinationState := BedInclinationState.FLAT,
      currentInclination := 0,
      lastNonMealStateChangeTime := 0,
      currentNonMealStateDurationSeconds := 2700,
      inMealInclineOverride := false } 23 0 3000
    { probDraw := 1/2, minorAddon := 1, flatAddon := 4 }
    (by decide) rfl rfl (by norm_num)).2 (by norm_num)

/-- C7: within the distributions' support, every dwell duration drawn for
the minor-incline state lies in `[600, 900)` seconds and every dwell
duration drawn for the FLAT state — the initial one and every reset —
lies in `[2700, 3600)` seconds; a tick either keeps the previous dwell
duration or draws a fresh one in the range matching its new state. -/
theorem C7_dwell_duration_ranges (st : BedState) (hour minute : Nat)
    (startSteady now_steady : ℤ) (rd : RandDraws) (a0 : ℤ)
    (hminor : 0 ≤ rd.minorAddon ∧ rd.minorAddon ≤ 4)
    (hflat : 0 ≤ rd.flatAddon ∧ rd.flatAddon ≤ 14)
    (ha0 : 0 ≤ a0 ∧ a0 ≤ 14) :
    (2700 ≤ (initialBedState startSteady a0).currentNonMealStateDurationSeconds ∧
      (initialBedState startSteady a0).currentNonMealStateDurationSeconds < 3600) ∧
    ((updateInclination st hour minute now_steady rd).currentNonMealStateDurationSeconds =
        st.currentNonMealStateDurationSeconds ∨
      (600 ≤ (updateInclination st hour minute now_steady rd).currentNonMealStateDurationSeconds ∧
        (updateInclination st hour minute now_steady rd).currentNonMealStateDurationSeconds < 900 ∧
        (updateInclination st hour minute now_steady rd).currentInclinationState =
          BedInclinationState.INCLINED) ∨
      (2700 ≤ (updateInclination st hour minute now_steady rd).currentNonMealStateDurationSeconds ∧
        (updateInclination st hour minute now_steady rd).currentNonMealStateDurationSeconds < 3600 ∧
        (updateInclination st hour minute now_steady rd).currentInclinationState =
          BedInclinationState.FLAT)) := by
  constructor
  · constructor
    · show 2700 ≤ (45 + a0) * 60
      omega
    · show (45 + a0) * 60 < 3600
      omega
  · by_cases hm : isMealSlot hour minute = true
    · left
      rw [updateInclination_meal st hour minute now_steady rd hm]
    · have hm' : isMealSlot hour minute = false := by
        cases hval : isMealSlot hour minute
        · rfl
        · exact absurd hval hm
      by_cases hov : st.inMealInclineOverride = true
      · right
        right
        rw [updateInclination_mealExit st hour minute now_steady rd hm' hov]
        refine ⟨?_, ?_, rfl⟩
        · show 2700 ≤ (45 + rd.flatAddon) * 60
          omega
        · show (45 + rd.flatAddon) * 60 < 3600
          omega
      · have hov' : st.inMealInclineOverride = false := by
          cases hval : st.inMealInclineOverride
          · rfl
          · exact absurd hval hov
        by_cases hexp : st.currentNonMealStateDurationSeconds ≤
            now_steady - st.lastNonMealStateChangeTime
        · by_cases hfl : st.currentInclinationState = BedInclinationState.FLAT
          · by_cases hp : rd.probDraw < PROBABILITY_MINOR_INCLINE
            · right
              left
              rw [updateInclination_minorEnter st hour minute now_steady rd hm' hov' hexp hfl hp]
              refine ⟨?_, ?_, rfl⟩
              · show 600 ≤ (10 + rd.minorAddon) * 60
                omega
              · show (10 + rd.minorAddon) * 60 < 900
                omega
            · right
              right
              rw [updateInclination_flatReset st hour minute now_steady rd hm' hov' hexp hfl hp]
              refine ⟨?_, ?_, rfl⟩
              · show 2700 ≤ (45 + rd.flatAddon) * 60
                omega
              · show (45 + rd.flatAddon) * 60 < 3600
                omega
          · right
            right
            rw [updateInclination_minorExit st hour minute now_steady rd hm' hov' hexp hfl]
            refine ⟨?_, ?_, rfl⟩
            · show 2700 ≤ (45 + rd.flatAddon) * 60
              omega
            · show (45 + rd.flatAddon) * 60 < 3600
              omega
        · left
          rw [updateInclination_noChange st hour minute now_steady rd hm' hov' hexp]

theorem C7_dwell_duration_ranges_witness :
    ((2700 ≤ (initialBedState 0 5).currentNonMealStateDurationSeconds ∧
      (initialBedState 0 5).currentNonMealStateDurationSeconds < 3600) ∧
    ((updateInclination
        { currentInclinationState := BedInclinationState.FLAT,
          currentInclination := 0,
          lastNonMealStateChangeTime := 0,
          currentNonMealStateDurationSeconds := 2700,
          inMealInclineOverride := false } 23 0 3000
        { probDraw := 1/10, minorAddon := 2, flatAddon := 6 }).currentNonMealStateDurationSeconds =
        2700 ∨
      (600 ≤ (updateInclination
        { currentInclinationState := BedInclinationState.FLAT,
          currentInclination := 0,
          lastNonMealStateChangeTime := 0,
          currentNonMealStateDurationSeconds := 2700,
          inMealInclineOverride := false } 23 0 3000
        { probDraw := 1/10, minorAddon := 2, flatAddon := 6 }).currentNonMealStateDurationSeconds ∧
        (updateInclination
        { currentInclinationState := BedInclinationState.FLAT,
          currentInclination := 0,
          lastNonMealStateChangeTime := 0,
          currentNonMealStateDurationSeconds := 2700,
          inMealInclineOverride := false } 23 0 3000
        { probDraw := 1/10, minorAddon := 2, flatAddon := 6 }).currentNonMealStateDurationSeconds < 900 ∧
        (updateInclination
        { currentInclinationState := BedInclinationState.FLAT,
          currentInclination := 0,
          lastNonMealStateChangeTime := 0,
          currentNonMealStateDurationSeconds := 2700,
          inMealInclineOverride := false } 23 0 3000
        { probDraw := 1/10, minorAddon := 2, flatAddon := 6 }).currentInclinationState =
          BedInclinationState.INCLINED) ∨
      (2700 ≤ (updateInclination
        { currentInclinationState := BedInclinationState.FLAT,
          currentInclination := 0,
          lastNonMealStateChangeTime := 0,
          currentNonMealStateDurationSeconds := 2700,
          inMealInclineOverride := false } 23 0 3000
        { probDraw := 1/10, minorAddon := 2, flatAddon := 6 }).currentNonMealStateDurationSeconds ∧
        (updateInclination
        { currentInclinationState := BedInclinationState.FLAT,
          currentInclination := 0,
          lastNonMealStateChangeTime := 0,
          currentNonMealStateDurationSeconds := 2700,
          inMealInclineOverride := false } 23 0 3000
        { probDraw := 1/10, minorAddon := 2, flatAddon := 6 }).currentNonMealStateDurationSeconds < 3600 ∧
        (updateInclination
        { currentInclinationState := BedInclinationState.FLAT,
          currentInclination := 0,
          lastNonMealStateChangeTime := 0,
          currentNonMealStateDurationSeconds := 2700,
          inMealInclineOverride := false } 23 0 3000
        { probDraw := 1/10, minorAddon := 2, flatAddon := 6 }).currentInclinationState =
          BedInclinationState.FLAT))) :=
  C7_dwell_duration_ranges
    { currentInclinationState := BedInclinationState.FLAT,
      currentInclination := 0,
      lastNonMealStateChangeTime := 0,
      currentNonMealStateDurationSeconds := 2700,
      inMealInclineOverride := false } 23 0 0 3000
    { probDraw := 1/10, minorAddon := 2, flatAddon := 6 } 5
    (by decide) (by decide) (by decide)

/-- C8: when the transport's initial connect raises, `main` exits with
code 1 and the publish loop is never entered, whatever the arguments
beyond the required instance number and whatever ticks would have
followed. -/
theorem C8_connect_failure_is_fatal (prog inst : String) (restArgs : List String)
    (startSteady flatAddon0 : ℤ) (ticks : List TickInput) :
    mainSim (prog :: inst :: restArgs) false startSteady flatAddon0 ticks =
      MainResult.connectFailExit 1 := by
  simp [mainSim]

/-- C9: a publish attempt that raises on some tick is caught and logged
and the loop continues: the simulation state evolves exactly as the
publish-blind state machine `runBed` prescribes (so no publish outcome
ever changes it), the per-tick error log flags are exactly the ticks'
publish outcomes, and all ticks of the prefix are processed — no publish
failure terminates the loop. -/
theorem C9_publish_failure_nonfatal (clientId : String) (st : BedState)
    (ticks : List TickInput) :
    (runLoop clientId st ticks).1 = runBed st (ticks.map TickInput.sim) ∧
    (runLoop clientId st ticks).2.map Prod.snd = ticks.map TickInput.publishRaises ∧
    (runLoop clientId st ticks).2.length = ticks.length := by
  induction ticks generalizing st with
  | nil => exact ⟨rfl, rfl, rfl⟩
  | cons t ts ih =>
    have h := ih (updateInclination st t.hour t.minute t.nowSteady t.draws)
    refine ⟨?_, ?_, ?_⟩
    · exact h.1
    · simpa [runLoop, loopStep] using h.2.1
    · simpa [runLoop, loopStep] using h.2.2

/-- C10: starting from the initial state, after every tick the inclination
is one of 0, 30 or 60 degrees and the state is FLAT exactly when the
inclination is 0; consequently every telemetry sample built by the loop
pairs the label "FLAT" with inclination 0 and the label "INCLINED" with
inclination 30 or 60. -/
theorem C10_inclination_pairing_invariant (clientId : String)
    (startSteady flatAddon0 : ℤ) (ticks : List TickInput) :
    BedInv (initialBedState startSteady flatAddon0) ∧
    BedInv (runLoop clientId (initialBedState startSteady flatAddon0) ticks).1 ∧
    ∀ p ∈ (runLoop clientId (initialBedState startSteady flatAddon0) ticks).2,
      (p.1.bedState = "FLAT" ∧ p.1.inclination = 0) ∨
      (p.1.bedState = "INCLINED" ∧ (p.1.inclination = 30 ∨ p.1.inclination = 60)) := by
  have h0 : BedInv (initialBedState startSteady flatAddon0) :=
    ⟨Or.inl rfl, by simp [initialBedState]⟩
  have h := bedInv_runLoop clientId (initialBedState startSteady flatAddon0) ticks h0
  exact ⟨h0, h.1, h.2⟩

theorem C10_inclination_pairing_invariant_witness :
    BedInv (initialBedState 0 3) ∧
    (((mkTelemetry "PatientBed1" 70 97
        (updateInclination (initialBedState 0 3) 12 5 40
          { probDraw := 1/2, minorAddon := 1, flatAddon := 2 }).currentInclination
        (updateInclination (initialBedState 0 3) 12 5 40
          { probDraw := 1/2, minorAddon := 1, flatAddon := 2 }).currentInclinationState
        "ts").bedState = "FLAT" ∧
      (mkTelemetry "PatientBed1" 70 97
        (updateInclination (initialBedState 0 3) 12 5 40
          { probDraw := 1/2, minorAddon := 1, flatAddon := 2 }).currentInclination
        (updateInclination (initialBedState 0 3) 12 5 40
          { probDraw := 1/2, minorAddon := 1, flatAddon := 2 }).currentInclinationState
        "ts").inclination = 0) ∨
    ((mkTelemetry "PatientBed1" 70 97
        (updateInclination (initialBedState 0 3) 12 5 40
          { probDraw := 1/2, minorAddon := 1, flatAddon := 2 }).currentInclination
        (updateInclination (initialBedState 0 3) 12 5 40
          { probDraw := 1/2, minorAddon := 1, flatAddon := 2 }).currentInclinationState
        "ts").bedState = "INCLINED" ∧
      ((mkTelemetry "PatientBed1" 70 97
        (updateInclination (initialBedState 0 3) 12 5 40
          { probDraw := 1/2, minorAddon := 1, flatAddon := 2 }).currentInclination
        (updateInclination (initialBedState 0 3) 12 5 40
          { probDraw := 1/2, minorAddon := 1, flatAddon := 2 }).currentInclinationState
        "ts").inclination = 30 ∨
       (mkTelemetry "PatientBed1" 70 97
        (updateInclination (initialBedState 0 3) 12 5 40
          { probDraw := 1/2, minorAddon := 1, flatAddon := 2 }).currentInclination
        (updateInclination (initialBedState 0 3) 12 5 40
          { probDraw := 1/2, minorAddon := 1, flatAddon := 2 }).currentInclinationState
        "ts").inclination = 60))) :=
  ⟨(C10_inclination_pairing_invariant "PatientBed1" 0 3
      [{ hour := 12, minute := 5, nowSteady := 40,
         draws := { probDraw := 1/2, minorAddon := 1, flatAddon := 2 },
         hr := 70, spo2 := 97, timestampStr := "ts", publishRaises := false }]).1,
   (C10_inclination_pairing_invariant "PatientBed1" 0 3
      [{ hour := 12, minute := 5, nowSteady := 40,
         draws := { probDraw := 1/2, minorAddon := 1, flatAddon := 2 },
         hr := 70, spo2 := 97, timestampStr := "ts", publishRaises := false }]).2.2
     (mkTelemetry "PatientBed1" 70 97
        (updateInclination (initialBedState 0 3) 12 5 40
          { probDraw := 1/2, minorAddon := 1, flatAddon := 2 }).currentInclination
        (updateInclination (initialBedState 0 3) 12 5 40
          { probDraw := 1/2, minorAddon := 1, flatAddon := 2 }).currentInclinationState
        "ts", false)
     (by simp [runLoop, loopStep])⟩

theorem stringMk_data (s : String) : String.mk s.data = s := rfl

theorem dropLit_append (p rest : List Char) : dropLit p (p ++ rest) = some rest := by
  induction p with
  | nil => rfl
  | cons c cs ih => simp [dropLit, ih]

theorem hexVal_hexDigitChar (m : Nat) (h : m < 16) : hexVal (hexDigitChar m) = some m := by
  interval_cases m <;> decide

theorem psc_quote (L : List Char) : parseStrContent ('\x22' :: L) = some ([], L) := by
  rw [parseStrContent.eq_def]
  simp

theorem psc_escQuote (L : List Char) : parseStrContent ('\\' :: '\x22' :: L) =
    (parseStrContent L).map fun p => ('\x22' :: p.1, p.2) := by
  rw [parseStrContent.eq_def]
  simp

theorem psc_escBackslash (L : List Char) : parseStrContent ('\\' :: '\\' :: L) =
    (parseStrContent L).map fun p => ('\\' :: p.1, p.2) := by
  rw [parseStrContent.eq_def]
  simp

theorem psc_escB (L : List Char) : parseStrContent ('\\' :: 'b' :: L) =
    (parseStrContent L).map fun p => ('\x08' :: p.1, p.2) := by
  rw [parseStrContent.eq_def]
  simp

theorem psc_escF (L : List Char) : parseStrContent ('\\' :: 'f' :: L) =
    (parseStrContent L).map fun p => ('\x0c' :: p.1, p.2) := by
  rw [parseStrContent.eq_def]
  simp

theorem psc_escN (L : List Char) : parseStrContent ('\\' :: 'n' :: L) =
    (parseStrContent L).map fun p => ('\n' :: p.1, p.2) := by
  rw [parseStrContent.eq_def]
  simp

theorem psc_escR (L : List Char) : parseStrContent ('\\' :: 'r' :: L) =
    (parseStrContent L).map fun p => ('\r' :: p.1, p.2) := by
  rw [parseStrContent.eq_def]
  simp

theorem psc_escT (L : List Char) : parseStrContent ('\\' :: 't' :: L) =
    (parseStrContent L).map fun p => ('\t' :: p.1, p.2) := by
  rw [parseStrContent.eq_def]
  simp

theorem psc_escU (c1 c2 c3 c4 : Char) (v1 v2 v3 v4 : Nat) (L : List Char)
    (e1 : hexVal c1 = some v1) (e2 : hexVal c2 = some v2)
    (e3 : hexVal c3 = some v3) (e4 : hexVal c4 = some v4) :
    parseStrContent ('\\' :: 'u' :: c1 :: c2 :: c3 :: c4 :: L) =
      (parseStrContent L).map fun p =>
        (Char.ofNat (((v1 * 16 + v2) * 16 + v3) * 16 + v4) :: p.1, p.2) := by
  rw [parseStrContent.eq_def]
  simp [e1, e2, e3, e4]

theorem psc_plain (c : Char) (L : List Char) (h1 : ¬ c = '\x22') (h2 : ¬ c = '\\') :
    parseStrContent (c :: L) =
      (parseStrContent L).map fun p => (c :: p.1, p.2) := by
  rw [parseStrContent.eq_def]
  simp [h1, h2]

theorem parseStrContent_escList (cs rest : List Char) :
    parseStrContent (escList cs ++ '\x22' :: rest) = some (cs, rest) := by
  induction cs with
  | nil =>
    rw [escList, List.nil_append, psc_quote]
  | cons c cs ih =>
    rw [escList, List.append_assoc]
    by_cases h1 : c = '\x22'
    · subst h1
      rw [show escChar '\x22' = ['\\', '\x22'] from rfl]
      rw [List.cons_append, List.cons_append, List.nil_append, psc_escQuote, ih]
      rfl
    · by_cases h2 : c = '\\'
      · subst h2
        rw [show escChar '\\' = ['\\', '\\'] from rfl]
        rw [List.cons_append, List.cons_append, List.nil_append, psc_escBackslash, ih]
        rfl
      · by_cases h3 : c = '\x08'
        · subst h3
          rw [show escChar '\x08' = ['\\', 'b'] from rfl]
          rw [List.cons_append, List.cons_append, List.nil_append, psc_escB, ih]
          rfl
        · by_cases h4 : c = '\x0c'
          · subst h4
            rw [show escChar '\x0c' = ['\\', 'f'] from rfl]
            rw [List.cons_append, List.cons_append, List.nil_append, psc_escF, ih]
            rfl
          · by_cases h5 : c = '\n'
            · subst h5
              rw [show escChar '\n' = ['\\', 'n'] from rfl]
              rw [List.cons_append, List.cons_append, List.nil_append, psc_escN, ih]
              rfl
            · by_cases h6 : c = '\r'
              · subst h6
                rw [show escChar '\r' = ['\\', 'r'] from rfl]
                rw [List.cons_append, List.cons_append, List.nil_append, psc_escR, ih]
                rfl
              · by_cases h7 : c = '\t'
                · subst h7
                  rw [show escChar '\t' = ['\\', 't'] from rfl]
                  rw [List.cons_append, List.cons_append, List.nil_append, psc_escT, ih]
                  rfl
                · by_cases h8 : c.toNat < 32
                  · have hdiv : c.toNat / 16 < 16 := by omega
                    have hmod : c.toNat % 16 < 16 := by omega
                    rw [show escChar c = ['\\', 'u', '0', '0',
                        hexDigitChar (c.toNat / 16), hexDigitChar (c.toNat % 16)] from by
                      rw [escChar]
                      rw [if_neg h1, if_neg h2, if_neg h3, if_neg h4, if_neg h5,
                        if_neg h6, if_neg h7, if_pos h8]]
                    rw [List.cons_append, List.cons_append, List.cons_append,
                      List.cons_append, List.cons_append, List.cons_append,
                      List.nil_append]
                    rw [psc_escU '0' '0' (hexDigitChar (c.toNat / 16))
                      (hexDigitChar (c.toNat % 16)) 0 0 (c.toNat / 16) (c.toNat % 16) _
                      (by decide) (by decide)
                      (hexVal_hexDigitChar _ hdiv) (hexVal_hexDigitChar _ hmod)]
                    rw [ih]
                    have harith : ((0 * 16 + 0) * 16 + c.toNat / 16) * 16 + c.toNat % 16 =
                        c.toNat := by omega
                    rw [harith, Char.ofNat_toNat]
                    rfl
                  · rw [show escChar c = [c] from by
                      rw [escChar]
                      rw [if_neg h1, if_neg h2, if_neg h3, if_neg h4, if_neg h5,
                        if_neg h6, if_neg h7, if_neg h8]]
                    rw [List.cons_append, List.nil_append]
                    rw [psc_plain c _ h1 h2, ih]
                    rfl

theorem parseJStr_escape (s : String) (rest : List Char) :
    parseJStr ('\x22' :: (escList s.data ++ '\x22' :: rest)) = some (s, rest) := by
  rw [parseJStr]
  rw [if_pos rfl, parseStrContent_escList]
  rfl

theorem natValLE_natDigitsAux (fuel : Nat) :
    ∀ n, n ≤ fuel → natValLE (natDigitsAux fuel n) = n := by
  induction fuel with
  | zero =>
    intro n h
    interval_cases n
    rfl
  | succ fuel ih =>
    intro n h
    cases n with
    | zero => rfl
    | succ m =>
      rw [natDigitsAux, natValLE]
      rw [ih ((m + 1) / 10) (by omega)]
      omega

theorem natValLE_natDigits (n : Nat) : natValLE (natDigits n) = n :=
  natValLE_natDigitsAux n n le_rfl

theorem natDigitsAux_lt (fuel : Nat) : ∀ n d, d ∈ natDigitsAux fuel n → d < 10 := by
  induction fuel with
  | zero =>
    intro n d h
    simp [natDigitsAux] at h
  | succ fuel ih =>
    intro n d h
    cases n with
    | zero => simp [natDigitsAux] at h
    | succ m =>
      rw [natDigitsAux] at h
      rcases List.mem_cons.mp h with h | h
      · subst h
        omega
      · exact ih _ d h

theorem natDigits_lt (n : Nat) : ∀ d ∈ natDigits n, d < 10 :=
  fun d hd => natDigitsAux_lt n n d hd

theorem natDigitsAux_length (fuel : Nat) :
    ∀ n k, n ≤ fuel → n < 10 ^ k → (natDigitsAux fuel n).length ≤ k := by
  induction fuel with
  | zero =>
    intro n k h hk
    interval_cases n
    simp [natDigitsAux]
  | succ fuel ih =>
    intro n k h hk
    cases n with
    | zero => simp [natDigitsAux]
    | succ m =>
      cases k with
      | zero =>
        simp at hk
      | succ k =>
        rw [natDigitsAux, List.length_cons]
        have h2 : (m + 1) / 10 < 10 ^ k := by
          rw [Nat.div_lt_iff_lt_mul (by norm_num)]
          calc m + 1 < 10 ^ (k + 1) := hk
            _ = 10 ^ k * 10 := by rw [pow_succ]
        have h3 := ih ((m + 1) / 10) k (by omega) h2
        omega

theorem natDigits_length (n k : Nat) (hk : n < 10 ^ k) : (natDigits n).length ≤ k :=
  natDigitsAux_length n n k le_rfl hk

theorem digitChar_toNat (d : Nat) (h : d < 10) : (digitChar d).toNat = 48 + d := by
  interval_cases d <;> decide

theorem digitChar_isDigit (d : Nat) (h : d < 10) : isDigitB (digitChar d) = true := by
  interval_cases d <;> decide

theorem natToDecChars_digits (n : Nat) : ∀ c ∈ natToDecChars n, isDigitB c = true := by
  intro c hc
  rw [natToDecChars] at hc
  by_cases h : n = 0
  · rw [if_pos h] at hc
    simp at hc
    subst hc
    decide
  · rw [if_neg h] at hc
    rw [List.mem_reverse] at hc
    obtain ⟨d, hd, hrfl⟩ := List.mem_map.mp hc
    subst hrfl
    exact digitChar_isDigit d (natDigits_lt n d hd)

theorem natToDecChars_ne_nil (n : Nat) : natToDecChars n ≠ [] := by
  rw [natToDecChars]
  by_cases h : n = 0
  · rw [if_pos h]
    simp
  · rw [if_neg h]
    cases hn : n with
    | zero => exact absurd hn h
    | succ m =>
      rw [natDigits, natDigitsAux]
      simp

theorem natToDecChars_isEmpty (n : Nat) : (natToDecChars n).isEmpty = false := by
  cases hc : natToDecChars n with
  | nil => exact absurd hc (natToDecChars_ne_nil n)
  | cons c cs => rfl

theorem foldl_digitChars (ds : List Nat) (h : ∀ d ∈ ds, d < 10) (acc : Nat) :
    List.foldl (fun a c => a * 10 + (c.toNat - 48)) acc ((ds.map digitChar).reverse) =
      acc * 10 ^ ds.length + natValLE ds := by
  induction ds generalizing acc with
  | nil => simp [natValLE]
  | cons d ds ih =>
    rw [List.map_cons, List.reverse_cons, List.foldl_append]
    rw [ih (fun x hx => h x (List.mem_cons_of_mem _ hx))]
    rw [List.foldl_cons, List.foldl_nil]
    rw [digitChar_toNat d (h d (List.mem_cons_self _ _))]
    rw [natValLE, List.length_cons, pow_succ]
    have hd : 48 + d - 48 = d := by omega
    rw [hd]
    ring

theorem digitsValB_natToDecChars (n : Nat) : digitsValB (natToDecChars n) = n := by
  by_cases h : n = 0
  · subst h
    decide
  · rw [natToDecChars, if_neg h, digitsValB]
    rw [foldl_digitChars (natDigits n) (natDigits_lt n) 0]
    rw [natValLE_natDigits]
    simp

theorem digitsValB_zeros (j : Nat) (bs : List Char) :
    digitsValB (List.replicate j '0' ++ bs) = digitsValB bs := by
  induction j with
  | zero => rfl
  | succ j ih =>
    rw [List.replicate_succ, List.cons_append]
    exact ih

theorem takeDigits_split (ds rest : List Char) (hds : ∀ c ∈ ds, isDigitB c = true)
    (hrest : headDigit rest = false) :
    takeDigits (ds ++ rest) = (ds, rest) := by
  induction ds with
  | nil =>
    rw [List.nil_append]
    cases rest with
    | nil => rfl
    | cons c cs =>
      rw [headDigit] at hrest
      rw [takeDigits, if_neg (by simp [hrest])]
  | cons c cs ih =>
    rw [List.cons_append, takeDigits, if_pos (hds c (List.mem_cons_self _ _))]
    rw [ih (fun x hx => hds x (List.mem_cons_of_mem _ hx))]

theorem list_isEmpty_false_of_ne_nil {L : List Char} (h : L ≠ []) : L.isEmpty = false := by
  cases L with
  | nil => exact absurd rfl h
  | cons c cs => rfl

theorem parseJNumCore_split (n : Nat) (fr rest : List Char)
    (hfr : ∀ c ∈ fr, isDigitB c = true) (hfrne : fr ≠ [])
    (hrest : headDigit rest = false) :
    parseJNumCore (natToDecChars n ++ ('.' :: (fr ++ rest))) =
      some (((n * 10 ^ fr.length + digitsValB fr : ℕ) : ℚ) / ((10 : ℚ) ^ fr.length),
        rest) := by
  have h1 : takeDigits (natToDecChars n ++ ('.' :: (fr ++ rest))) =
      (natToDecChars n, '.' :: (fr ++ rest)) :=
    takeDigits_split _ _ (natToDecChars_digits n) (by rw [headDigit]; decide)
  have h2 : takeDigits (fr ++ rest) = (fr, rest) := takeDigits_split _ _ hfr hrest
  rw [parseJNumCore, h1]
  simp only [list_isEmpty_false_of_ne_nil (natToDecChars_ne_nil n), Bool.false_eq_true,
    if_false]
  simp only [h2, list_isEmpty_false_of_ne_nil hfrne, Bool.false_eq_true, if_false]
  rw [digitsValB_natToDecChars]

theorem parseJNum_digit_head (c : Char) (L : List Char) (hc : isDigitB c = true) :
    parseJNum (c :: L) = parseJNumCore (c :: L) := by
  rw [parseJNum]
  rw [if_neg (by intro h; subst h; exact absurd hc (by decide))]

theorem parseJNum_neg_head (L : List Char) :
    parseJNum ('-' :: L) = (parseJNumCore L).map fun p => (-p.1, p.2) := by
  rw [parseJNum]
  rw [if_pos rfl]

theorem renderNumChars_eq (q : ℚ) (k : Nat) (hk : pow10Exp q.den = some k) :
    renderNumChars q =
      (if q.num * ((10 ^ (max k 1) : ℤ) / (q.den : ℤ)) < 0 then ['-'] else []) ++
        natToDecChars
          ((q.num * ((10 ^ (max k 1) : ℤ) / (q.den : ℤ))).natAbs / 10 ^ (max k 1)) ++
        '.' :: (List.replicate ((max k 1) -
            (natDigits ((q.num * ((10 ^ (max k 1) : ℤ) / (q.den : ℤ))).natAbs %
              10 ^ (max k 1))).length) '0' ++
          ((natDigits ((q.num * ((10 ^ (max k 1) : ℤ) / (q.den : ℤ))).natAbs %
              10 ^ (max k 1))).map digitChar).reverse) := by
  rw [renderNumChars, hk]

theorem scaled_div_eq (q : ℚ) (k1 : Nat) (hdvd : (q.den : ℤ) ∣ 10 ^ k1) :
    ((q.num * ((10 ^ k1 : ℤ) / (q.den : ℤ)) : ℤ) : ℚ) / ((10 : ℚ) ^ k1) = q := by
  obtain ⟨t, ht⟩ := hdvd
  have hden0 : (q.den : ℤ) ≠ 0 := by
    exact_mod_cast q.den_nz
  have htq : (10 ^ k1 : ℤ) / (q.den : ℤ) = t := by
    rw [ht]
    exact Int.mul_ediv_cancel_left t hden0
  have ht0 : (t : ℚ) ≠ 0 := by
    intro h
    have ht0' : t = 0 := by exact_mod_cast h
    rw [ht0', mul_zero] at ht
    exact absurd ht (by positivity)
  have h10 : ((10 : ℚ) ^ k1) = (q.den : ℚ) * (t : ℚ) := by
    have := congrArg (fun z : ℤ => (z : ℚ)) ht
    push_cast at this
    exact this
  rw [htq, h10]
  push_cast
  rw [mul_div_mul_right _ _ ht0]
  exact Rat.num_div_den q

theorem parseJNum_nonneg_start (n : Nat) (L : List Char) :
    parseJNum (natToDecChars n ++ L) = parseJNumCore (natToDecChars n ++ L) := by
  obtain ⟨c0, cs0, hc0⟩ := List.exists_cons_of_ne_nil (natToDecChars_ne_nil n)
  have hd : isDigitB c0 = true :=
    natToDecChars_digits n c0 (by rw [hc0]; exact List.mem_cons_self _ _)
  rw [hc0, List.cons_append]
  rw [parseJNum_digit_head c0 _ hd]

theorem pow10Exp_dvd (d k : Nat) (h : pow10Exp d = some k) : d ∣ 10 ^ k := by
  rw [pow10Exp] at h
  have h2 := @List.find?_some Nat (fun j => decide (d ∣ 10 ^ j)) k (List.range 1200) h
  simpa using h2

theorem parseJNum_render (q : ℚ) (k : Nat) (hk : pow10Exp q.den = some k)
    (rest : List Char) (hrest : headDigit rest = false) :
    parseJNum (renderNumChars q ++ rest) = some (q, rest) := by
  have hdvd0 : q.den ∣ 10 ^ k := pow10Exp_dvd q.den k hk
  have hdvdn : q.den ∣ 10 ^ (max k 1) :=
    dvd_trans hdvd0 (pow_dvd_pow 10 (le_max_left k 1))
  have hdvd : (q.den : ℤ) ∣ (10 : ℤ) ^ (max k 1) := by
    have h2 := Int.natCast_dvd_natCast.mpr hdvdn
    push_cast at h2
    exact h2
  rw [renderNumChars_eq q k hk]
  set k1 := max k 1 with hk1def
  have hk1 : 1 ≤ k1 := le_max_right k 1
  set scaled := q.num * ((10 ^ k1 : ℤ) / (q.den : ℤ)) with hscaled
  set A := scaled.natAbs with hA
  set ds := natDigits (A % 10 ^ k1) with hds
  set fracL := List.replicate (k1 - ds.length) '0' ++ (ds.map digitChar).reverse
    with hfrac
  have hdigits : ∀ c ∈ fracL, isDigitB c = true := by
    intro c hc
    rw [hfrac] at hc
    rcases List.mem_append.mp hc with h | h
    · rw [List.eq_of_mem_replicate h]
      decide
    · rw [List.mem_reverse] at h
      obtain ⟨d, hd, hrfl⟩ := List.mem_map.mp h
      subst hrfl
      rw [hds] at hd
      exact digitChar_isDigit d (natDigits_lt _ d hd)
  have hlen : fracL.length = k1 := by
    rw [hfrac, List.length_append, List.length_replicate, List.length_reverse,
      List.length_map]
    have hle : ds.length ≤ k1 := by
      rw [hds]
      exact natDigits_length _ _ (Nat.mod_lt _ (by positivity))
    omega
  have hfrne : fracL ≠ [] := by
    intro h
    rw [h] at hlen
    simp at hlen
    omega
  have hval : digitsValB fracL = A % 10 ^ k1 := by
    rw [hfrac, digitsValB_zeros]
    rw [digitsValB, foldl_digitChars ds (by rw [hds]; exact natDigits_lt _) 0]
    rw [hds, natValLE_natDigits]
    simp
  have hcore : parseJNumCore (natToDecChars (A / 10 ^ k1) ++ ('.' :: (fracL ++ rest))) =
      some (((A / 10 ^ k1 * 10 ^ k1 + A % 10 ^ k1 : ℕ) : ℚ) / ((10 : ℚ) ^ k1), rest) := by
    rw [parseJNumCore_split _ _ _ hdigits hfrne hrest, hval, hlen]
  have hAcast : ((A / 10 ^ k1 * 10 ^ k1 + A % 10 ^ k1 : ℕ) : ℚ) = (A : ℚ) := by
    rw [Nat.div_add_mod']
  by_cases hneg : scaled < 0
  · rw [if_pos hneg]
    rw [show (['-'] ++ natToDecChars (A / 10 ^ k1) ++
        '.' :: fracL) ++ rest =
        '-' :: (natToDecChars (A / 10 ^ k1) ++ ('.' :: (fracL ++ rest))) from by
      simp [List.append_assoc]]
    rw [parseJNum_neg_head, hcore]
    simp only [Option.map_some']
    have hAq : (A : ℚ) = -((scaled : ℤ) : ℚ) := by
      rw [show ((A : ℚ)) = ((A : ℤ) : ℚ) from by push_cast; rfl]
      rw [hA, Int.ofNat_natAbs_of_nonpos (le_of_lt hneg)]
      push_cast
      ring
    have hv : -(((A / 10 ^ k1 * 10 ^ k1 + A % 10 ^ k1 : ℕ) : ℚ) / ((10 : ℚ) ^ k1)) = q := by
      rw [hAcast, hAq, neg_div, neg_neg]
      rw [hscaled]
      exact scaled_div_eq q k1 hdvd
    rw [hv]
  · rw [if_neg hneg]
    rw [List.nil_append]
    rw [show (natToDecChars (A / 10 ^ k1) ++ '.' :: fracL) ++ rest =
        natToDecChars (A / 10 ^ k1) ++ ('.' :: (fracL ++ rest)) from by
      simp [List.append_assoc]]
    rw [parseJNum_nonneg_start, hcore]
    have hAq : (A : ℚ) = ((scaled : ℤ) : ℚ) := by
      rw [show ((A : ℚ)) = ((A : ℤ) : ℚ) from by push_cast; rfl]
      rw [hA, Int.natAbs_of_nonneg (not_lt.mp hneg)]
    have hv : (((A / 10 ^ k1 * 10 ^ k1 + A % 10 ^ k1 : ℕ) : ℚ) / ((10 : ℚ) ^ k1)) = q := by
      rw [hAcast, hAq, hscaled]
      exact scaled_div_eq q k1 hdvd
    rw [hv]

theorem toJson_unfold (t : Telemetry) :
    Telemetry.toJson t =
      dump4 [("bedState", JVal.str t.bedState), ("deviceId", JVal.str t.deviceId),
        ("heartRate", JVal.num t.heartRate), ("inclination", JVal.num t.inclination),
        ("spo2", JVal.num t.spo2), ("timestamp", JVal.str t.timestamp)] := rfl

theorem toJson_data_eq (t : Telemetry) :
    (Telemetry.toJson t).data =
      "\x7b\n    \x22bedState\x22: ".data ++
      ('\x22' :: (escList t.bedState.data ++ '\x22' ::
      (",\n    \x22deviceId\x22: ".data ++
      ('\x22' :: (escList t.deviceId.data ++ '\x22' ::
      (",\n    \x22heartRate\x22: ".data ++
      (renderNumChars t.heartRate ++
      (",\n    \x22inclination\x22: ".data ++
      (renderNumChars t.inclination ++
      (",\n    \x22spo2\x22: ".data ++
      (renderNumChars t.spo2 ++
      (",\n    \x22timestamp\x22: ".data ++
      ('\x22' :: (escList t.timestamp.data ++ '\x22' ::
      "\n\x7d".data)))))))))))))) := by
  rw [toJson_unfold]
  have hb : escList "bedState".data = "bedState".data := by decide
  have hd : escList "deviceId".data = "deviceId".data := by decide
  have hh : escList "heartRate".data = "heartRate".data := by decide
  have hi : escList "inclination".data = "inclination".data := by decide
  have hs : escList "spo2".data = "spo2".data := by decide
  have ht : escList "timestamp".data = "timestamp".data := by decide
  simp only [dump4, dumpEntries, dumpEntry, dumpJVal, hb, hd, hh, hi, hs, ht]
  simp [List.append_assoc]

theorem dropLit_self (p : List Char) : dropLit p p = some [] := by
  have h := dropLit_append p []
  rwa [List.append_nil] at h

theorem parseTelemetry_toJson (t : Telemetry) (kh ki ks : Nat)
    (hh : pow10Exp t.heartRate.den = some kh)
    (hi : pow10Exp t.inclination.den = some ki)
    (hs : pow10Exp t.spo2.den = some ks) :
    parseTelemetry (Telemetry.toJson t) = some t := by
  have hr1 : ∀ L : List Char,
      headDigit (",\n    \x22inclination\x22: ".data ++ L) = false := fun L => rfl
  have hr2 : ∀ L : List Char,
      headDigit (",\n    \x22spo2\x22: ".data ++ L) = false := fun L => rfl
  have hr3 : ∀ L : List Char,
      headDigit (",\n    \x22timestamp\x22: ".data ++ L) = false := fun L => rfl
  rw [parseTelemetry]
  rw [toJson_data_eq]
  rw [dropLit_append]
  simp only []
  rw [parseJStr_escape]
  simp only []
  rw [dropLit_append]
  simp only []
  rw [parseJStr_escape]
  simp only []
  rw [dropLit_append]
  simp only []
  rw [parseJNum_render t.heartRate kh hh _ (hr1 _)]
  simp only []
  rw [dropLit_append]
  simp only []
  rw [parseJNum_render t.inclination ki hi _ (hr2 _)]
  simp only []
  rw [dropLit_append]
  simp only []
  rw [parseJNum_render t.spo2 ks hs _ (hr3 _)]
  simp only []
  rw [dropLit_append]
  simp only []
  rw [parseJStr_escape]
  simp only []
  rw [dropLit_self]

set_option maxRecDepth 40000 in
/-- C3 counterexample: for a concrete telemetry sample the quoted keys do
not occur in the order deviceId, timestamp, heartRate, spo2, inclination,
bedState in the serialized payload. -/
theorem C3_claimed_key_order_counterexample :
    keysInOrder
      (Telemetry.toJson (mkTelemetry "PatientBed1" 72 97 0 BedInclinationState.FLAT
        "2025-01-01T12:00:00+0530"))
      ["deviceId", "timestamp", "heartRate", "spo2", "inclination", "bedState"] =
      false := by
  decide

/-- C3 (amended): the serialized payload is the four-space-indented
object whose keys appear in alphabetical (std::map) order bedState,
deviceId, heartRate, inclination, spo2, timestamp. -/
theorem C3_amended_payload_shape (t : Telemetry) :
    (Telemetry.toJson t).data =
      "\x7b\n    \x22bedState\x22: ".data ++
      ('\x22' :: (escList t.bedState.data ++ '\x22' ::
      (",\n    \x22deviceId\x22: ".data ++
      ('\x22' :: (escList t.deviceId.data ++ '\x22' ::
      (",\n    \x22heartRate\x22: ".data ++
      (renderNumChars t.heartRate ++
      (",\n    \x22inclination\x22: ".data ++
      (renderNumChars t.inclination ++
      (",\n    \x22spo2\x22: ".data ++
      (renderNumChars t.spo2 ++
      (",\n    \x22timestamp\x22: ".data ++
      ('\x22' :: (escList t.timestamp.data ++ '\x22' ::
      "\n\x7d".data)))))))))))))) :=
  toJson_data_eq t

/-- C4: serializing a telemetry sample and parsing the payload back yields
exactly the deviceId, heartRate, spo2, inclination and bedState label
supplied to the constructor (and the timestamp), provided the numeric
fields are finite decimals — true of every binary floating-point value. -/
theorem C4_payload_round_trip (id ts : String) (hr oxygen incl : ℚ)
    (state : BedInclinationState)
    (hh : (pow10Exp hr.den).isSome = true)
    (hs : (pow10Exp oxygen.den).isSome = true)
    (hi : (pow10Exp incl.den).isSome = true) :
    parseTelemetry (Telemetry.toJson (mkTelemetry id hr oxygen incl state ts)) =
      some (mkTelemetry id hr oxygen incl state ts) ∧
    (mkTelemetry id hr oxygen incl state ts).deviceId = id ∧
    (mkTelemetry id hr oxygen incl state ts).heartRate = hr ∧
    (mkTelemetry id hr oxygen incl state ts).spo2 = oxygen ∧
    (mkTelemetry id hr oxygen incl state ts).inclination = incl ∧
    (mkTelemetry id hr oxygen incl state ts).bedState = bedStateLabel state ∧
    (mkTelemetry id hr oxygen incl state ts).timestamp = ts := by
  obtain ⟨kh, hkh⟩ := Option.isSome_iff_exists.mp hh
  obtain ⟨ko, hko⟩ := Option.isSome_iff_exists.mp hs
  obtain ⟨ki, hki⟩ := Option.isSome_iff_exists.mp hi
  exact ⟨parseTelemetry_toJson (mkTelemetry id hr oxygen incl state ts) kh ki ko hkh hki hko,
    rfl, rfl, rfl, rfl, rfl, rfl⟩

set_option maxRecDepth 40000 in
theorem C4_payload_round_trip_witness :
    parseTelemetry (Telemetry.toJson (mkTelemetry "PatientBed1"
        (⟨145, 2, by norm_num, by norm_num⟩ : ℚ) 97 0
        BedInclinationState.FLAT "2025-01-01T12:00:00+0530")) =
      some (mkTelemetry "PatientBed1" (⟨145, 2, by norm_num, by norm_num⟩ : ℚ) 97 0
        BedInclinationState.FLAT "2025-01-01T12:00:00+0530") ∧
    (mkTelemetry "PatientBed1" (⟨145, 2, by norm_num, by norm_num⟩ : ℚ) 97 0
        BedInclinationState.FLAT "2025-01-01T12:00:00+0530").deviceId = "PatientBed1" ∧
    (mkTelemetry "PatientBed1" (⟨145, 2, by norm_num, by norm_num⟩ : ℚ) 97 0
        BedInclinationState.FLAT "2025-01-01T12:00:00+0530").heartRate =
      (⟨145, 2, by norm_num, by norm_num⟩ : ℚ) ∧
    (mkTelemetry "PatientBed1" (⟨145, 2, by norm_num, by norm_num⟩ : ℚ) 97 0
        BedInclinationState.FLAT "2025-01-01T12:00:00+0530").spo2 = 97 ∧
    (mkTelemetry "PatientBed1" (⟨145, 2, by norm_num, by norm_num⟩ : ℚ) 97 0
        BedInclinationState.FLAT "2025-01-01T12:00:00+0530").inclination = 0 ∧
    (mkTelemetry "PatientBed1" (⟨145, 2, by norm_num, by norm_num⟩ : ℚ) 97 0
        BedInclinationState.FLAT "2025-01-01T12:00:00+0530").bedState =
      bedStateLabel BedInclinationState.FLAT ∧
    (mkTelemetry "PatientBed1" (⟨145, 2, by norm_num, by norm_num⟩ : ℚ) 97 0
        BedInclinationState.FLAT "2025-01-01T12:00:00+0530").timestamp =
      "2025-01-01T12:00:00+0530" :=
  C4_payload_round_trip "PatientBed1" "2025-01-01T12:00:00+0530"
    (⟨145, 2, by norm_num, by norm_num⟩ : ℚ) 97 0
    BedInclinationState.FLAT (by decide) (by decide) (by decide)

end PatientBedSim
